/-
Verification of the Scenario & Sample Generation Engine
(`src/ragas/experimental/testset/simulators/abstract_qa.py`).

The engine is embedded shallowly: each Python function becomes a Lean
function over explicit data.  LLM calls, the batch executor and the
random sampler are effects; they are passed in as explicit oracle
parameters (`batch`, `styleStream`, `lengthStream`, `critic_question`,
...), so every definition is a pure, executable function of its inputs.
Collaborator modules that are not part of the analysed source
(`graph.py`, `base.py`, `base_qa.py`, `prompts.py`) are modelled from
the specification; each such definition says so in its doc comment.
-/
import Mathlib

namespace AbstractQA

/-- A dynamic property value held in a node's or relationship's property
bag: a string, a list of strings (e.g. `keyphrases`), or a number
(e.g. `cosine_similarity`). -/
inductive Value where
  | str (s : String)
  | strList (l : List String)
  | num (q : Rat)
deriving DecidableEq, Repr

/-- Python truthiness of a property value, as used by
`True if rel.get_property(...) else False`: empty strings, empty lists
and zero are falsy. -/
def Value.truthy : Value → Bool
  | Value.str s => s ≠ ""
  | Value.strList l => !l.isEmpty
  | Value.num q => q ≠ 0

/-- Modelled from the spec: a graph node with a `type` tag
(document | chunk) and a mapping of named properties to values,
optionally absent (`graph.py` is not part of the analysed source). -/
structure Node where
  type : String
  properties : List (String × Value)
deriving DecidableEq, Repr

/-- Modelled from the spec: per-node `get_property(name) -> value | absent`. -/
def Node.get_property (nd : Node) (key : String) : Option Value :=
  (nd.properties.find? (fun p => p.1 = key)).map (fun p => p.2)

/-- Modelled from the spec: a relationship connects two nodes and
carries named properties (e.g. similarity scores). -/
structure Relationship where
  source : Node
  target : Node
  properties : List (String × Value)
deriving DecidableEq, Repr

/-- Modelled from the spec: per-relationship property lookup. -/
def Relationship.get_property (rel : Relationship) (key : String) : Option Value :=
  (rel.properties.find? (fun p => p.1 = key)).map (fun p => p.2)

/-- Modelled from the spec: the KnowledgeGraph collaborator exposes the
full ordered set of nodes and the relationships. -/
structure KnowledgeGraph where
  nodes : List Node
  relationships : List Relationship
deriving DecidableEq, Repr

/-- `NodeType.CHUNK` of the graph module: node `type` tags are strings. -/
def NodeType.CHUNK : String := "chunk"

/-- `NodeType.DOCUMENT` of the graph module. -/
def NodeType.DOCUMENT : String := "document"

/-- Neighbours of a node through qualifying relationships (both
directions). -/
def neighborsOf (rels : List Relationship) (nd : Node) : List Node :=
  (rels.filterMap (fun r => if r.source = nd then some r.target else none)) ++
    (rels.filterMap (fun r => if r.target = nd then some r.source else none))

/-- Fuelled breadth-first traversal collecting the component of the
queue's nodes. -/
def bfsComponent (rels : List Relationship) :
    Nat → List Node → List Node → List Node
  | 0, _, comp => comp
  | _ + 1, [], comp => comp
  | fuel + 1, q :: queue, comp =>
    if q ∈ comp then bfsComponent rels fuel queue comp
    else bfsComponent rels fuel (queue ++ neighborsOf rels q) (comp ++ [q])

/-- Modelled from the spec: `find_clusters(graph, predicate)` groups
nodes transitively connected by any relationship for which the
predicate holds, traversing nodes in graph order (`graph.py` is not
part of the analysed source).  A node with no qualifying connection
forms no cluster — the spec's fallback to singleton pseudo-clusters
only makes sense if isolated nodes are not already returned as
clusters. -/
def KnowledgeGraph.find_clusters (kg : KnowledgeGraph)
    (relationship_condition : Relationship → Bool) : List (List Node) :=
  let rels := kg.relationships.filter relationship_condition
  let fuel := (kg.nodes.length + 2 * rels.length + 1) * (2 * rels.length + 1) + 1
  (kg.nodes.foldl
    (fun acc nd =>
      if nd ∈ acc.2 then acc
      else
        let comp := bfsComponent rels fuel [nd] []
        if comp.length > 1 then (acc.1 ++ [comp], acc.2 ++ comp)
        else (acc.1, acc.2 ++ comp))
    (([], []) : List (List Node) × List Node)).1

/-- Modelled from the spec: the enumerated question styles
(`base.py` is not part of the analysed source). -/
inductive UserInputStyle where
  | REASONING
  | SIMPLE
  | MULTI_CONTEXT
deriving DecidableEq, Repr

/-- Modelled from the spec: the enumerated question lengths. -/
inductive UserInputLength where
  | SHORT
  | MEDIUM
  | LONG
deriving DecidableEq, Repr

/-- `random.choices(population, k)`: draws exactly `k` values.  The
ambient random state is modelled as an explicit stream of draws; the
call returns its first `k` values. -/
def choices (k : Nat) (stream : Nat → α) : List α :=
  (List.range k).map stream

/-- A theme label produced by the theme-extraction prompt
(`prompts.py` is not part of the analysed source; shape inferred from
its use: `theme.theme`). -/
structure Theme where
  theme : String
deriving DecidableEq, Repr

/-- The structured output of one theme-extraction call: a list of
themes (used as `theme.themes`). -/
structure Themes where
  themes : List Theme
deriving DecidableEq, Repr

/-- The structured input of one theme-extraction call: the aggregated
summaries of a cluster plus the number of themes requested. -/
structure Summaries where
  summaries : List Value
  num_themes : Nat
deriving DecidableEq, Repr

/-- The structured input of one concept-extraction call. -/
structure KeyphrasesAndNumConcepts where
  keyphrases : List String
  num_concepts : Nat
deriving DecidableEq, Repr

/-- The structured output of one concept-extraction call: concept
labels, used directly as strings. -/
structure Concepts where
  concepts : List String
deriving DecidableEq, Repr

/-- Elements contributed by a `keyphrases` property value when the code
does `keyphrases.extend(keyphrases_node)`: keyphrase properties are
stored as string lists; an absent property contributes nothing. -/
def keyphraseElems : Option Value → List String
  | some (Value.strList l) => l
  | _ => []

/-- `math.ceil(n / k)` on the natural inputs the engine uses. -/
def ceilNatDiv (n k : Nat) : Nat := (n + k - 1) / k

/-- Python `zip` over four sequences: truncates to the shortest. -/
def zip4 (as : List α) (bs : List β) (cs : List γ) (ds : List δ) :
    List (α × β × γ × δ) :=
  (as.zip (bs.zip (cs.zip ds))).map (fun q => (q.1, q.2.1, q.2.2.1, q.2.2.2))

/-- Python `zip` over three sequences. -/
def zip3 (as : List α) (bs : List β) (cs : List γ) : List (α × β × γ) :=
  (as.zip (bs.zip cs)).map (fun q => (q.1, q.2.1, q.2.2))

/-- The error message raised when neither clusters nor fallback nodes
exist. -/
def noClustersMsg : String :=
  "no clusters found. Try running a few transforms to populate the dataset"

/-- A theme-based scenario: anchor theme, cluster of nodes, sampled
style and length (`AbstractQuestionScenario`). -/
structure AbstractQuestionScenario where
  theme : String
  nodes : List Node
  style : UserInputStyle
  length : UserInputLength
deriving DecidableEq, Repr

/-- A concept-based scenario (`ComparativeAbstractQuestionScenario`). -/
structure ComparativeAbstractQuestionScenario where
  common_concept : String
  nodes : List Node
  style : UserInputStyle
  length : UserInputLength
deriving DecidableEq, Repr

/-- The relationship predicate of `AbstractQuestionSimulator`:
`True if rel.get_property("cosine_similarity") else False`. -/
def abstractRelCond (rel : Relationship) : Bool :=
  match rel.get_property "cosine_similarity" with
  | some v => v.truthy
  | none => false

/-- The relationship predicate of `ComparativeAbstractQuestionSimulator`:
`True if rel.get_property("summary_cosine_similarity") else False`. -/
def comparativeRelCond (rel : Relationship) : Bool :=
  match rel.get_property "summary_cosine_similarity" with
  | some v => v.truthy
  | none => false

/-- Cluster selection of `AbstractQuestionSimulator.generate_scenarios`:
filter `find_clusters` output to all-chunk clusters; if empty, fall
back to one singleton per chunk node truncated to `n`; if even that is
empty, raise `ValueError`. -/
def abstractNodeClusters (n : Nat) (kg : KnowledgeGraph) :
    Except String (List (List Node)) :=
  let node_clusters := (kg.find_clusters abstractRelCond).filter
    (fun cluster => cluster.all (fun nd => nd.type == "chunk"))
  if node_clusters.length = 0 then
    let node_clusters_new :=
      (kg.nodes.filter (fun nd => nd.type == NodeType.CHUNK)).map (fun nd => [nd])
    if node_clusters_new.length = 0 then Except.error noClustersMsg
    else Except.ok (node_clusters_new.take n)
  else Except.ok node_clusters

/-- Cluster selection of
`ComparativeAbstractQuestionSimulator.generate_scenarios`: the
`find_clusters` output is used as-is (no node-type filter); if empty,
fall back to one singleton per document node truncated to `n`; if even
that is empty, raise `ValueError`. -/
def comparativeNodeClusters (n : Nat) (kg : KnowledgeGraph) :
    Except String (List (List Node)) :=
  let node_clusters := kg.find_clusters comparativeRelCond
  if node_clusters.length = 0 then
    let node_clusters_new :=
      (kg.nodes.filter (fun nd => nd.type == NodeType.DOCUMENT)).map (fun nd => [nd])
    if node_clusters_new.length = 0 then Except.error noClustersMsg
    else Except.ok (node_clusters_new.take n)
  else Except.ok node_clusters

/-- Decidable equality on `Except`, so concrete runs can be checked by
`decide`. -/
def exceptDecEq [DecidableEq ε] [DecidableEq α] :
    (a b : Except ε α) → Decidable (a = b)
  | Except.error x, Except.error y =>
    if h : x = y then Decidable.isTrue (by rw [h])
    else Decidable.isFalse (fun hc => h (Except.error.inj hc))
  | Except.error _, Except.ok _ => Decidable.isFalse (fun hc => Except.noConfusion hc)
  | Except.ok _, Except.error _ => Decidable.isFalse (fun hc => Except.noConfusion hc)
  | Except.ok x, Except.ok y =>
    if h : x = y then Decidable.isTrue (by rw [h])
    else Decidable.isFalse (fun hc => h (Except.ok.inj hc))

instance [DecidableEq ε] [DecidableEq α] : DecidableEq (Except ε α) := exceptDecEq

/-- Every intermediate value of one
`AbstractQuestionSimulator.generate_scenarios` run after cluster
selection, named as in the source. -/
structure AbstractRun where
  node_clusters : List (List Node)
  num_clusters : Nat
  num_themes : Nat
  kw_list : List Summaries
  themes : List Themes
  clusters_sampled : List (List Node)
  themes_sampled : List Theme
  question_styles : List UserInputStyle
  question_lengths : List UserInputLength
  distributions : List AbstractQuestionScenario
deriving DecidableEq, Repr

/-- The body of `AbstractQuestionSimulator.generate_scenarios` after
cluster selection.  `batch` is the batch-execution collaborator
(`run_async_batch` applied to the theme prompt): it receives the
submitted inputs in order and yields the per-cluster `Themes` results
in submission order. -/
def abstractRunWith (n : Nat) (node_clusters : List (List Node))
    (batch : List Summaries → List Themes)
    (styleStream : Nat → UserInputStyle)
    (lengthStream : Nat → UserInputLength) : AbstractRun :=
  let num_clusters := node_clusters.length
  let num_themes := ceilNatDiv n num_clusters
  let kw_list := node_clusters.map (fun cluster =>
    { summaries := cluster.filterMap (fun nd => nd.get_property "summary"),
      num_themes := num_themes : Summaries })
  let themes := batch kw_list
  let themes_list := themes.map (fun th => th.themes)
  let sampledPairs := (node_clusters.zip themes_list).flatMap
    (fun ct => ct.2.map (fun th => (ct.1, th)))
  let clusters_sampled := sampledPairs.map (fun p => p.1)
  let themes_sampled := sampledPairs.map (fun p => p.2)
  let question_styles := choices (num_clusters * num_themes) styleStream
  let question_lengths := choices (num_clusters * num_themes) lengthStream
  let distributions :=
    (zip4 clusters_sampled themes_sampled question_styles question_lengths).map
      (fun q =>
        { theme := q.2.1.theme, nodes := q.1, style := q.2.2.1,
          length := q.2.2.2 : AbstractQuestionScenario })
  { node_clusters := node_clusters, num_clusters := num_clusters,
    num_themes := num_themes, kw_list := kw_list, themes := themes,
    clusters_sampled := clusters_sampled, themes_sampled := themes_sampled,
    question_styles := question_styles, question_lengths := question_lengths,
    distributions := distributions }

/-- `AbstractQuestionSimulator.generate_scenarios`, with all
intermediates exposed. -/
def abstractRun (n : Nat) (kg : KnowledgeGraph)
    (batch : List Summaries → List Themes)
    (styleStream : Nat → UserInputStyle)
    (lengthStream : Nat → UserInputLength) : Except String AbstractRun :=
  (abstractNodeClusters n kg).map
    (fun cs => abstractRunWith n cs batch styleStream lengthStream)

/-- `AbstractQuestionSimulator.generate_scenarios`: the returned
scenario list. -/
def AbstractQuestionSimulator.generate_scenarios (n : Nat)
    (kg : KnowledgeGraph) (batch : List Summaries → List Themes)
    (styleStream : Nat → UserInputStyle)
    (lengthStream : Nat → UserInputLength) :
    Except String (List AbstractQuestionScenario) :=
  (abstractRun n kg batch styleStream lengthStream).map
    (fun r => r.distributions)

/-- Every intermediate value of one
`ComparativeAbstractQuestionSimulator.generate_scenarios` run after
cluster selection, named as in the source. -/
structure ComparativeRun where
  node_clusters : List (List Node)
  num_clusters : Nat
  num_concepts : Nat
  kw_list : List KeyphrasesAndNumConcepts
  common_concepts : List Concepts
  cluster_concepts : List (List Node × String)
  question_lengths_sampled : List UserInputLength
  question_styles_sampled : List UserInputStyle
  scenarios : List ComparativeAbstractQuestionScenario
deriving DecidableEq, Repr

/-- The body of `ComparativeAbstractQuestionSimulator.generate_scenarios`
after cluster selection. -/
def comparativeRunWith (n : Nat) (node_clusters : List (List Node))
    (batch : List KeyphrasesAndNumConcepts → List Concepts)
    (styleStream : Nat → UserInputStyle)
    (lengthStream : Nat → UserInputLength) : ComparativeRun :=
  let num_clusters := node_clusters.length
  let num_concepts := ceilNatDiv n num_clusters
  let kw_list := node_clusters.map (fun cluster =>
    { keyphrases := cluster.flatMap
        (fun nd => keyphraseElems (nd.get_property "keyphrases")),
      num_concepts := num_concepts : KeyphrasesAndNumConcepts })
  let common_concepts := batch kw_list
  let cluster_concepts := (node_clusters.zip common_concepts).flatMap
    (fun cc => cc.2.concepts.map (fun c => (cc.1, c)))
  let question_lengths_sampled := choices (num_clusters * num_concepts) lengthStream
  let question_styles_sampled := choices (num_clusters * num_concepts) styleStream
  let scenarios :=
    (zip3 cluster_concepts question_lengths_sampled question_styles_sampled).map
      (fun q =>
        { common_concept := q.1.2, nodes := q.1.1, length := q.2.1,
          style := q.2.2 : ComparativeAbstractQuestionScenario })
  { node_clusters := node_clusters, num_clusters := num_clusters,
    num_concepts := num_concepts, kw_list := kw_list,
    common_concepts := common_concepts, cluster_concepts := cluster_concepts,
    question_lengths_sampled := question_lengths_sampled,
    question_styles_sampled := question_styles_sampled, scenarios := scenarios }

/-- `ComparativeAbstractQuestionSimulator.generate_scenarios`, with all
intermediates exposed. -/
def comparativeRun (n : Nat) (kg : KnowledgeGraph)
    (batch : List KeyphrasesAndNumConcepts → List Concepts)
    (styleStream : Nat → UserInputStyle)
    (lengthStream : Nat → UserInputLength) : Except String ComparativeRun :=
  (comparativeNodeClusters n kg).map
    (fun cs => comparativeRunWith n cs batch styleStream lengthStream)

/-- `ComparativeAbstractQuestionSimulator.generate_scenarios`: the
returned scenario list. -/
def ComparativeAbstractQuestionSimulator.generate_scenarios (n : Nat)
    (kg : KnowledgeGraph)
    (batch : List KeyphrasesAndNumConcepts → List Concepts)
    (styleStream : Nat → UserInputStyle)
    (lengthStream : Nat → UserInputLength) :
    Except String (List ComparativeAbstractQuestionScenario) :=
  (comparativeRun n kg batch styleStream lengthStream).map
    (fun r => r.scenarios)

/-- The final output unit (`SingleTurnSample`): generated question,
reference answer, supporting context passages. -/
structure SingleTurnSample where
  user_input : String
  reference : String
  reference_contexts : List Value
deriving DecidableEq, Repr

/-- One collaborator call made by `generate_sample`, recorded in
submission order so call counts and call conditions can be stated. -/
inductive QAEvent where
  | gen_user_input
  | critic (passed : Bool)
  | modify
  | answer
deriving DecidableEq, Repr

/-- `AbstractQuestionSimulator.generate_sample`.  The collaborators
(`generate_user_input`, `critic_question`, `modify_question`,
`generate_answer` — defined in `base_qa.py`, outside the analysed
source) are oracle parameters; per the spec the critic produces
pass/fail, `true` meaning the draft passes.  Returns the sample
together with the trace of collaborator calls.  Note the source's
guard: `if await self.critic_question(user_input): user_input = await
self.modify_question(...)` — the revision runs when the critic returns
`True`. -/
def AbstractQuestionSimulator.generate_sample
    (scenario : AbstractQuestionScenario)
    (generate_user_input : AbstractQuestionScenario → String)
    (critic_question : String → Bool)
    (modify_question : String → AbstractQuestionScenario → String)
    (generate_answer : String → AbstractQuestionScenario → String) :
    SingleTurnSample × List QAEvent :=
  let draft := generate_user_input scenario
  let passed := critic_question draft
  let user_input := if passed then modify_question draft scenario else draft
  let reference := generate_answer user_input scenario
  let reference_contexts :=
    scenario.nodes.filterMap (fun nd => nd.get_property "page_content")
  ({ user_input := user_input, reference := reference,
     reference_contexts := reference_contexts },
   [QAEvent.gen_user_input, QAEvent.critic passed] ++
     (if passed then [QAEvent.modify] else []) ++ [QAEvent.answer])

/-- `ComparativeAbstractQuestionSimulator.generate_sample`.  Here the
source's guard is `if not await self.critic_question(question):
question = await self.modify_question(...)` — the revision runs when
the critic returns `False`. -/
def ComparativeAbstractQuestionSimulator.generate_sample
    (scenario : ComparativeAbstractQuestionScenario)
    (generate_question : ComparativeAbstractQuestionScenario → String)
    (critic_question : String → Bool)
    (modify_question : String → ComparativeAbstractQuestionScenario → String)
    (generate_answer : String → ComparativeAbstractQuestionScenario → String) :
    SingleTurnSample × List QAEvent :=
  let draft := generate_question scenario
  let passed := critic_question draft
  let question := if !passed then modify_question draft scenario else draft
  let answer := generate_answer question scenario
  let reference_contexts :=
    scenario.nodes.filterMap (fun nd => nd.get_property "summary")
  ({ user_input := question, reference := answer,
     reference_contexts := reference_contexts },
   [QAEvent.gen_user_input, QAEvent.critic passed] ++
     (if !passed then [QAEvent.modify] else []) ++ [QAEvent.answer])

/-! ### Concrete fixtures used by counterexamples and witnesses -/

/-- A chunk node carrying a summary and page content. -/
def chunkA : Node :=
  { type := "chunk",
    properties := [("summary", Value.str "sa"), ("page_content", Value.str "A")] }

/-- A second chunk node. -/
def chunkB : Node :=
  { type := "chunk",
    properties := [("summary", Value.str "sb"), ("page_content", Value.str "B")] }

/-- A document node carrying a summary and keyphrases. -/
def docA : Node :=
  { type := "document",
    properties := [("summary", Value.str "da"),
      ("keyphrases", Value.strList ["k1", "k2"])] }

/-- A relationship between the two chunk nodes qualifying for the
theme-based predicate. -/
def relAB : Relationship :=
  { source := chunkA, target := chunkB,
    properties := [("cosine_similarity", Value.num 1)] }

/-- A relationship between the two chunk nodes qualifying for the
concept-based predicate (a `summary_cosine_similarity` score on
chunk-level nodes). -/
def relABsum : Relationship :=
  { source := chunkA, target := chunkB,
    properties := [("summary_cosine_similarity", Value.num 1)] }

/-- A graph with chunk and document nodes and no relationships: both
simulators take their fallback path. -/
def kgFallback : KnowledgeGraph :=
  { nodes := [chunkA, chunkB, docA], relationships := [] }

/-- A graph whose two chunk nodes are linked by a
`summary_cosine_similarity` relationship. -/
def kgChunkSummaryRel : KnowledgeGraph :=
  { nodes := [chunkA, chunkB], relationships := [relABsum] }

/-- A graph with no nodes at all. -/
def kgEmpty : KnowledgeGraph := { nodes := [], relationships := [] }

/-- A constant style stream. -/
def sConst : Nat → UserInputStyle := fun _ => UserInputStyle.SIMPLE

/-- A constant length stream. -/
def lConst : Nat → UserInputLength := fun _ => UserInputLength.SHORT

/-- A theme label fixture. -/
def themeT1 : Theme := { theme := "t1" }

/-- A theme-extraction batch oracle in which the first cluster yields no
themes and the second yields one: fewer labels than requested. -/
def batchDrop : List Summaries → List Themes :=
  fun _ => [{ themes := [] }, { themes := [themeT1] }]

/-- A concept-extraction batch oracle yielding one concept per request. -/
def batchConceptsOne : List KeyphrasesAndNumConcepts → List Concepts :=
  fun ks => ks.map (fun _ => { concepts := ["c1"] })

/-! ### Helper lemmas -/

/-- `abstractRun` succeeds exactly when cluster selection succeeds, and
its result is the pure body applied to the selected clusters. -/
lemma abstractRun_ok {n : Nat} {kg : KnowledgeGraph}
    {batch : List Summaries → List Themes} {s : Nat → UserInputStyle}
    {l : Nat → UserInputLength} {r : AbstractRun} :
    abstractRun n kg batch s l = Except.ok r ↔
      ∃ cs, abstractNodeClusters n kg = Except.ok cs ∧
        r = abstractRunWith n cs batch s l := by
  unfold abstractRun
  cases h : abstractNodeClusters n kg <;> simp [Except.map, eq_comm]

/-- `comparativeRun` succeeds exactly when cluster selection succeeds. -/
lemma comparativeRun_ok {n : Nat} {kg : KnowledgeGraph}
    {batch : List KeyphrasesAndNumConcepts → List Concepts}
    {s : Nat → UserInputStyle} {l : Nat → UserInputLength}
    {r : ComparativeRun} :
    comparativeRun n kg batch s l = Except.ok r ↔
      ∃ cs, comparativeNodeClusters n kg = Except.ok cs ∧
        r = comparativeRunWith n cs batch s l := by
  unfold comparativeRun
  cases h : comparativeNodeClusters n kg <;> simp [Except.map, eq_comm]

/-- Successful cluster selection yields at least one cluster whenever
`n ≥ 1`. -/
lemma abstractNodeClusters_pos {n : Nat} {kg : KnowledgeGraph}
    {cs : List (List Node)} (hn : 1 ≤ n)
    (h : abstractNodeClusters n kg = Except.ok cs) : 1 ≤ cs.length := by
  simp only [abstractNodeClusters] at h
  split at h
  · split at h
    · exact absurd h (by simp)
    · rename_i h1 h2
      have := Except.ok.inj h
      subst this
      simp only [List.length_take, List.length_map] at *
      omega
  · rename_i h1
    have := Except.ok.inj h
    subst this
    omega

/-- Successful comparative cluster selection yields at least one cluster
whenever `n ≥ 1`. -/
lemma comparativeNodeClusters_pos {n : Nat} {kg : KnowledgeGraph}
    {cs : List (List Node)} (hn : 1 ≤ n)
    (h : comparativeNodeClusters n kg = Except.ok cs) : 1 ≤ cs.length := by
  simp only [comparativeNodeClusters] at h
  split at h
  · split at h
    · exact absurd h (by simp)
    · rename_i h1 h2
      have := Except.ok.inj h
      subst this
      simp only [List.length_take, List.length_map] at *
      omega
  · rename_i h1
    have := Except.ok.inj h
    subst this
    omega

/-! ### Claims -/

/-- A scenario fixture for the question pipeline. -/
def scPipeline : AbstractQuestionScenario :=
  { theme := "t", nodes := [chunkA], style := UserInputStyle.SIMPLE,
    length := UserInputLength.SHORT }

/-- A comparative scenario fixture for the question pipeline. -/
def scPipelineComp : ComparativeAbstractQuestionScenario :=
  { common_concept := "c", nodes := [docA], style := UserInputStyle.SIMPLE,
    length := UserInputLength.SHORT }

/-- C2: the claim states that in both simulators the question is
revised exactly when the critic check fails.  The comparative simulator
does behave that way, but `AbstractQuestionSimulator.generate_sample`
has the guard inverted (`if await self.critic_question(user_input):`
with no `not`, unlike its sibling's `if not await
self.critic_question(question):`): it revises exactly when the critic
passes.  This theorem evaluates the code at the failing input: with a
critic that passes, the abstract simulator calls `modify_question` and
replaces the draft; with a critic that fails, it keeps the draft; the
comparative simulator does the reverse, matching the claim.  (In both
simulators the critic is still invoked exactly once and never
re-invoked after a revision, as the traces show.) -/
theorem C2_critic_gate_inverted :
    ((AbstractQuestionSimulator.generate_sample scPipeline (fun _ => "draft")
        (fun _ => true) (fun _ _ => "revised") (fun q _ => q)).2 =
      [QAEvent.gen_user_input, QAEvent.critic true, QAEvent.modify,
        QAEvent.answer]) ∧
    ((AbstractQuestionSimulator.generate_sample scPipeline (fun _ => "draft")
        (fun _ => true) (fun _ _ => "revised") (fun q _ => q)).1.user_input =
      "revised") ∧
    ((AbstractQuestionSimulator.generate_sample scPipeline (fun _ => "draft")
        (fun _ => false) (fun _ _ => "revised") (fun q _ => q)).2 =
      [QAEvent.gen_user_input, QAEvent.critic false, QAEvent.answer]) ∧
    ((ComparativeAbstractQuestionSimulator.generate_sample scPipelineComp
        (fun _ => "draft") (fun _ => false) (fun _ _ => "revised")
        (fun q _ => q)).2 =
      [QAEvent.gen_user_input, QAEvent.critic false, QAEvent.modify,
        QAEvent.answer]) ∧
    ((ComparativeAbstractQuestionSimulator.generate_sample scPipelineComp
        (fun _ => "draft") (fun _ => true) (fun _ _ => "revised")
        (fun q _ => q)).2 =
      [QAEvent.gen_user_input, QAEvent.critic true, QAEvent.answer]) := by
  refine ⟨?_, ?_, ?_, ?_, ?_⟩ <;> decide

/-- C1, counterexample: with two fallback chunk clusters and a theme
extractor that returns no theme for the first cluster and one for the
second, the flattened (cluster, label) pair count is 1, yet both
samplers are called with count `num_clusters * num_themes = 2`: the
sampled sequences do not have length equal to the flattened pair
count. -/
theorem C1_counterexample :
    (abstractRun 2 kgFallback batchDrop sConst lConst).map
        (fun r => (r.question_styles.length, r.question_lengths.length,
          r.clusters_sampled.length)) = Except.ok (2, 2, 1) ∧
      (2 : Nat) ≠ 1 := by
  exact ⟨by decide, by decide⟩

/-- C1, amended: in every scenario-generation run of both simulators,
the count passed to the style and length samplers is
`num_clusters * num_per_cluster`, the pre-flattening product — not the
flattened (cluster, label) pair count.  (When a cluster yields fewer
labels than requested the sampled sequences are longer than the pair
sequence; the excess is discarded by the later `zip`.) -/
theorem C1_amended_sampler_counts (n : Nat) (kg : KnowledgeGraph)
    (batch : List Summaries → List Themes)
    (batch2 : List KeyphrasesAndNumConcepts → List Concepts)
    (s : Nat → UserInputStyle) (l : Nat → UserInputLength)
    (r : AbstractRun) (r2 : ComparativeRun)
    (hr : abstractRun n kg batch s l = Except.ok r)
    (hr2 : comparativeRun n kg batch2 s l = Except.ok r2) :
    (r.question_styles.length = r.num_clusters * r.num_themes ∧
      r.question_lengths.length = r.num_clusters * r.num_themes) ∧
    (r2.question_styles_sampled.length = r2.num_clusters * r2.num_concepts ∧
      r2.question_lengths_sampled.length = r2.num_clusters * r2.num_concepts) := by
  obtain ⟨cs, hcs, rfl⟩ := abstractRun_ok.mp hr
  obtain ⟨cs2, hcs2, rfl⟩ := comparativeRun_ok.mp hr2
  simp [abstractRunWith, comparativeRunWith, choices]

/-- The abstract run of the C1 fixtures, spelled out. -/
def runC1A : AbstractRun :=
  abstractRunWith 2 [[chunkA], [chunkB]] batchDrop sConst lConst

/-- The comparative run of the C1 fixtures, spelled out. -/
def runC1C : ComparativeRun :=
  comparativeRunWith 2 [[docA]] batchConceptsOne sConst lConst

/-- Witness for `C1_amended_sampler_counts` at the concrete fixtures. -/
theorem C1_amended_witness :
    (runC1A.question_styles.length = runC1A.num_clusters * runC1A.num_themes ∧
      runC1A.question_lengths.length =
        runC1A.num_clusters * runC1A.num_themes) ∧
    (runC1C.question_styles_sampled.length =
        runC1C.num_clusters * runC1C.num_concepts ∧
      runC1C.question_lengths_sampled.length =
        runC1C.num_clusters * runC1C.num_concepts) :=
  C1_amended_sampler_counts 2 kgFallback batchDrop batchConceptsOne sConst
    lConst runC1A runC1C (by decide) (by decide)

/-- Cluster selection only ever fails with the no-clusters message. -/
lemma abstractNodeClusters_error {n : Nat} {kg : KnowledgeGraph} {e : String}
    (h : abstractNodeClusters n kg = Except.error e) : e = noClustersMsg := by
  simp only [abstractNodeClusters] at h
  split at h
  · split at h
    · exact (Except.error.inj h).symm
    · exact absurd h (by simp)
  · exact absurd h (by simp)

/-- Comparative cluster selection only ever fails with the no-clusters
message. -/
lemma comparativeNodeClusters_error {n : Nat} {kg : KnowledgeGraph}
    {e : String} (h : comparativeNodeClusters n kg = Except.error e) :
    e = noClustersMsg := by
  simp only [comparativeNodeClusters] at h
  split at h
  · split at h
    · exact (Except.error.inj h).symm
    · exact absurd h (by simp)
  · exact absurd h (by simp)

/-- `abstractRun` fails exactly when cluster selection fails. -/
lemma abstractRun_error {n : Nat} {kg : KnowledgeGraph}
    {batch : List Summaries → List Themes} {s : Nat → UserInputStyle}
    {l : Nat → UserInputLength} {e : String} :
    abstractRun n kg batch s l = Except.error e ↔
      abstractNodeClusters n kg = Except.error e := by
  unfold abstractRun
  cases h : abstractNodeClusters n kg <;> simp [Except.map]

/-- `comparativeRun` fails exactly when cluster selection fails. -/
lemma comparativeRun_error {n : Nat} {kg : KnowledgeGraph}
    {batch : List KeyphrasesAndNumConcepts → List Concepts}
    {s : Nat → UserInputStyle} {l : Nat → UserInputLength} {e : String} :
    comparativeRun n kg batch s l = Except.error e ↔
      comparativeNodeClusters n kg = Except.error e := by
  unfold comparativeRun
  cases h : comparativeNodeClusters n kg <;> simp [Except.map]

/-- C10: both `generate_scenarios` bodies return exactly
`min P (num_clusters * num_per_cluster)` scenarios, where `P` is the
flattened (cluster, label) pair count, and never raise on a length
mismatch between the pair sequence and the sampled attribute
sequences — the only error either run can produce is the no-clusters
configuration error; excess sampled attributes (or excess pairs) are
silently discarded by `zip` truncation. -/
theorem C10_scenario_count_min (n : Nat) (kg : KnowledgeGraph)
    (batch : List Summaries → List Themes)
    (batch2 : List KeyphrasesAndNumConcepts → List Concepts)
    (s : Nat → UserInputStyle) (l : Nat → UserInputLength) :
    (∀ r, abstractRun n kg batch s l = Except.ok r →
      r.distributions.length =
        min r.clusters_sampled.length (r.num_clusters * r.num_themes)) ∧
    (∀ e, abstractRun n kg batch s l = Except.error e → e = noClustersMsg) ∧
    (∀ r2, comparativeRun n kg batch2 s l = Except.ok r2 →
      r2.scenarios.length =
        min r2.cluster_concepts.length (r2.num_clusters * r2.num_concepts)) ∧
    (∀ e, comparativeRun n kg batch2 s l = Except.error e →
      e = noClustersMsg) := by
  refine ⟨?_, ?_, ?_, ?_⟩
  · intro r hr
    obtain ⟨cs, hcs, rfl⟩ := abstractRun_ok.mp hr
    simp only [abstractRunWith, zip4, choices, List.length_map,
      List.length_zip, List.length_range]
    omega
  · intro e he
    exact abstractNodeClusters_error (abstractRun_error.mp he)
  · intro r2 hr2
    obtain ⟨cs2, hcs2, rfl⟩ := comparativeRun_ok.mp hr2
    simp only [comparativeRunWith, zip3, choices, List.length_map,
      List.length_zip, List.length_range]
    omega
  · intro e he
    exact comparativeNodeClusters_error (comparativeRun_error.mp he)

/-- Witness for `C10_scenario_count_min` at the concrete fixtures. -/
theorem C10_scenario_count_min_witness :
    runC1A.distributions.length =
      min runC1A.clusters_sampled.length
        (runC1A.num_clusters * runC1A.num_themes) ∧
    runC1C.scenarios.length =
      min runC1C.cluster_concepts.length
        (runC1C.num_clusters * runC1C.num_concepts) :=
  ⟨(C10_scenario_count_min 2 kgFallback batchDrop batchConceptsOne sConst
      lConst).1 runC1A (by decide),
    (C10_scenario_count_min 2 kgFallback batchDrop batchConceptsOne sConst
      lConst).2.2.1 runC1C (by decide)⟩

/-- C3, counterexample: the flattened pair sequence has length 1 while
the sampled style and length sequences have length 2, yet the
scenario-assembly step raises no length-mismatch error — the run
returns `ok`. -/
theorem C3_counterexample :
    (abstractRun 2 kgFallback batchDrop sConst lConst).map
        (fun r => (r.clusters_sampled.length, r.question_styles.length,
          r.question_lengths.length)) = Except.ok (1, 2, 2) ∧
      abstractRun 2 kgFallback batchDrop sConst lConst =
        Except.ok runC1A := by
  exact ⟨by decide, by decide⟩

/-- C3, amended: the scenario-assembly step never raises at all.  The
flattened pair sequence and the sampled style and length sequences are
combined by `zip`, which silently truncates to the shortest; the only
error `generate_scenarios` can produce (in either simulator) is the
no-clusters configuration error, and whenever cluster selection
succeeds the run returns scenarios — for every combination of sequence
lengths, equal or not, including zero. -/
theorem C3_amended_never_mismatch (n : Nat) (kg : KnowledgeGraph)
    (batch : List Summaries → List Themes)
    (batch2 : List KeyphrasesAndNumConcepts → List Concepts)
    (s : Nat → UserInputStyle) (l : Nat → UserInputLength) :
    (∀ e, AbstractQuestionSimulator.generate_scenarios n kg batch s l =
        Except.error e → e = noClustersMsg) ∧
    (∀ cs, abstractNodeClusters n kg = Except.ok cs →
      ∃ scs, AbstractQuestionSimulator.generate_scenarios n kg batch s l =
        Except.ok scs) ∧
    (∀ e, ComparativeAbstractQuestionSimulator.generate_scenarios n kg batch2
        s l = Except.error e → e = noClustersMsg) ∧
    (∀ cs, comparativeNodeClusters n kg = Except.ok cs →
      ∃ scs, ComparativeAbstractQuestionSimulator.generate_scenarios n kg
        batch2 s l = Except.ok scs) := by
  refine ⟨?_, ?_, ?_, ?_⟩
  · intro e he
    unfold AbstractQuestionSimulator.generate_scenarios at he
    rcases habs : abstractRun n kg batch s l with e' | r
    · rw [habs] at he
      simp only [Except.map] at he
      exact abstractNodeClusters_error
        (abstractRun_error.mp (habs.trans (congrArg _ (Except.error.inj he))))
    · rw [habs] at he
      simp [Except.map] at he
  · intro cs hcs
    refine ⟨(abstractRunWith n cs batch s l).distributions, ?_⟩
    unfold AbstractQuestionSimulator.generate_scenarios
    rw [abstractRun_ok.mpr ⟨cs, hcs, rfl⟩]
    rfl
  · intro e he
    unfold ComparativeAbstractQuestionSimulator.generate_scenarios at he
    rcases habs : comparativeRun n kg batch2 s l with e' | r
    · rw [habs] at he
      simp only [Except.map] at he
      exact comparativeNodeClusters_error
        (comparativeRun_error.mp (habs.trans (congrArg _ (Except.error.inj he))))
    · rw [habs] at he
      simp [Except.map] at he
  · intro cs hcs
    refine ⟨(comparativeRunWith n cs batch2 s l).scenarios, ?_⟩
    unfold ComparativeAbstractQuestionSimulator.generate_scenarios
    rw [comparativeRun_ok.mpr ⟨cs, hcs, rfl⟩]
    rfl

/-- Witness for `C3_amended_never_mismatch` at the concrete fixtures:
with mismatched sequence lengths the abstract run still returns
scenarios, and so does the comparative run. -/
theorem C3_amended_witness :
    (∃ scs, AbstractQuestionSimulator.generate_scenarios 2 kgFallback
      batchDrop sConst lConst = Except.ok scs) ∧
    (∃ scs, ComparativeAbstractQuestionSimulator.generate_scenarios 2
      kgFallback batchConceptsOne sConst lConst = Except.ok scs) :=
  ⟨(C3_amended_never_mismatch 2 kgFallback batchDrop batchConceptsOne sConst
      lConst).2.1 [[chunkA], [chunkB]] (by decide),
    (C3_amended_never_mismatch 2 kgFallback batchDrop batchConceptsOne sConst
      lConst).2.2.2 [[docA]] (by decide)⟩

/-- Cluster selection fails with the no-clusters message exactly when
the (type-filtered) cluster list is empty and no chunk node exists. -/
lemma abstractNodeClusters_error_iff {n : Nat} {kg : KnowledgeGraph} :
    abstractNodeClusters n kg = Except.error noClustersMsg ↔
      ((kg.find_clusters abstractRelCond).filter
          (fun c => c.all (fun nd => nd.type == "chunk")) = [] ∧
        kg.nodes.filter (fun nd => nd.type == NodeType.CHUNK) = []) := by
  simp only [abstractNodeClusters]
  split
  · split
    · rename_i h1 h2
      simp only [List.length_map, List.length_eq_zero] at h1 h2
      simp [h1, h2]
    · rename_i h1 h2
      simp only [List.length_map, List.length_eq_zero] at h1 h2
      simp [h1, h2]
  · rename_i h1
    simp only [List.length_eq_zero] at h1
    simp [h1]

/-- Comparative cluster selection fails with the no-clusters message
exactly when the cluster list is empty and no document node exists. -/
lemma comparativeNodeClusters_error_iff {n : Nat} {kg : KnowledgeGraph} :
    comparativeNodeClusters n kg = Except.error noClustersMsg ↔
      (kg.find_clusters comparativeRelCond = [] ∧
        kg.nodes.filter (fun nd => nd.type == NodeType.DOCUMENT) = []) := by
  simp only [comparativeNodeClusters]
  split
  · split
    · rename_i h1 h2
      simp only [List.length_map, List.length_eq_zero] at h1 h2
      simp [h1, h2]
    · rename_i h1 h2
      simp only [List.length_map, List.length_eq_zero] at h1 h2
      simp [h1, h2]
  · rename_i h1
    simp only [List.length_eq_zero] at h1
    simp [h1]

/-- C6: `generate_scenarios` raises the fatal "no clusters found" error
exactly when cluster discovery (for the abstract simulator, after its
all-chunk filter) yields no clusters and the graph contains no node of
the required type; whenever a cluster or a required-type node exists,
the error is not raised.  The equivalence holds for every batch oracle
and sampler stream, i.e. the error is decided before and independently
of any generation call, and the run makes no retry: the same input
always yields the same single error. -/
theorem C6_fatal_error_iff (n : Nat) (kg : KnowledgeGraph)
    (batch : List Summaries → List Themes)
    (batch2 : List KeyphrasesAndNumConcepts → List Concepts)
    (s : Nat → UserInputStyle) (l : Nat → UserInputLength) :
    (abstractRun n kg batch s l = Except.error noClustersMsg ↔
      ((kg.find_clusters abstractRelCond).filter
          (fun c => c.all (fun nd => nd.type == "chunk")) = [] ∧
        kg.nodes.filter (fun nd => nd.type == NodeType.CHUNK) = [])) ∧
    (comparativeRun n kg batch2 s l = Except.error noClustersMsg ↔
      (kg.find_clusters comparativeRelCond = [] ∧
        kg.nodes.filter (fun nd => nd.type == NodeType.DOCUMENT) = [])) :=
  ⟨abstractRun_error.trans abstractNodeClusters_error_iff,
    comparativeRun_error.trans comparativeNodeClusters_error_iff⟩

/-- C5: when cluster discovery yields an empty list but the graph has
at least one node of the required type, the fallback path produces
exactly `min n (count of required-type nodes)` singleton clusters, each
holding one required-type node — for both simulators. -/
theorem C5_fallback_min_singletons (n : Nat) (kg : KnowledgeGraph)
    (batch : List Summaries → List Themes)
    (batch2 : List KeyphrasesAndNumConcepts → List Concepts)
    (s : Nat → UserInputStyle) (l : Nat → UserInputLength)
    (hA : (kg.find_clusters abstractRelCond).filter
        (fun c => c.all (fun nd => nd.type == "chunk")) = [])
    (hAx : kg.nodes.filter (fun nd => nd.type == NodeType.CHUNK) ≠ [])
    (hC : kg.find_clusters comparativeRelCond = [])
    (hCx : kg.nodes.filter (fun nd => nd.type == NodeType.DOCUMENT) ≠ []) :
    (∃ r, abstractRun n kg batch s l = Except.ok r ∧
      r.node_clusters.length =
        min n (kg.nodes.filter (fun nd => nd.type == NodeType.CHUNK)).length ∧
      ∀ c ∈ r.node_clusters, ∃ nd, c = [nd] ∧ nd.type = NodeType.CHUNK) ∧
    (∃ r2, comparativeRun n kg batch2 s l = Except.ok r2 ∧
      r2.node_clusters.length =
        min n
          (kg.nodes.filter (fun nd => nd.type == NodeType.DOCUMENT)).length ∧
      ∀ c ∈ r2.node_clusters, ∃ nd, c = [nd] ∧
        nd.type = NodeType.DOCUMENT) := by
  constructor
  · have hcs : abstractNodeClusters n kg =
        Except.ok (((kg.nodes.filter
          (fun nd => nd.type == NodeType.CHUNK)).map (fun nd => [nd])).take n) := by
      simp only [abstractNodeClusters, hA]
      rw [if_pos (by simp)]
      rw [if_neg (by simpa using hAx)]
    refine ⟨abstractRunWith n _ batch s l, abstractRun_ok.mpr ⟨_, hcs, rfl⟩,
      ?_, ?_⟩
    · simp [abstractRunWith, List.length_take, Nat.min_comm]
    · intro c hc
      simp only [abstractRunWith] at hc
      have hc2 := List.mem_of_mem_take hc
      obtain ⟨nd, hnd, rfl⟩ := List.mem_map.mp hc2
      exact ⟨nd, rfl, by simpa using (List.mem_filter.mp hnd).2⟩
  · have hcs : comparativeNodeClusters n kg =
        Except.ok (((kg.nodes.filter
          (fun nd => nd.type == NodeType.DOCUMENT)).map
            (fun nd => [nd])).take n) := by
      simp only [comparativeNodeClusters, hC]
      rw [if_pos (by simp)]
      rw [if_neg (by simpa using hCx)]
    refine ⟨comparativeRunWith n _ batch2 s l,
      comparativeRun_ok.mpr ⟨_, hcs, rfl⟩, ?_, ?_⟩
    · simp [comparativeRunWith, List.length_take, Nat.min_comm]
    · intro c hc
      simp only [comparativeRunWith] at hc
      have hc2 := List.mem_of_mem_take hc
      obtain ⟨nd, hnd, rfl⟩ := List.mem_map.mp hc2
      exact ⟨nd, rfl, by simpa using (List.mem_filter.mp hnd).2⟩

/-- Witness for `C5_fallback_min_singletons` at the concrete fixtures:
`kgFallback` has no qualifying relationships, two chunk nodes and one
document node. -/
theorem C5_fallback_witness :
    (∃ r, abstractRun 4 kgFallback batchDrop sConst lConst = Except.ok r ∧
      r.node_clusters.length =
        min 4
          (kgFallback.nodes.filter
            (fun nd => nd.type == NodeType.CHUNK)).length ∧
      ∀ c ∈ r.node_clusters, ∃ nd, c = [nd] ∧ nd.type = NodeType.CHUNK) ∧
    (∃ r2, comparativeRun 4 kgFallback batchConceptsOne sConst lConst =
        Except.ok r2 ∧
      r2.node_clusters.length =
        min 4
          (kgFallback.nodes.filter
            (fun nd => nd.type == NodeType.DOCUMENT)).length ∧
      ∀ c ∈ r2.node_clusters, ∃ nd, c = [nd] ∧
        nd.type = NodeType.DOCUMENT) :=
  C5_fallback_min_singletons 4 kgFallback batchDrop batchConceptsOne sConst
    lConst (by decide) (by decide) (by decide) (by decide)

/-- `math.ceil(n / k)` on naturals is the integer ceiling of the exact
division. -/
lemma ceilNatDiv_eq_ceil (n c : Nat) (hn : 1 ≤ n) (hc : 1 ≤ c) :
    ceilNatDiv n c = ⌈(n : ℚ) / (c : ℚ)⌉₊ := by
  have hc0 : (0 : ℚ) < c := by exact_mod_cast hc
  have ht : ceilNatDiv n c = (n - 1) / c + 1 := by
    unfold ceilNatDiv
    have h1 : n + c - 1 = (n - 1) + c := by omega
    rw [h1, Nat.add_div_right _ (by omega : 0 < c)]
  have hq1 : (n - 1) / c * c < n :=
    lt_of_le_of_lt (Nat.div_mul_le_self (n - 1) c) (by omega)
  have hlt := (Nat.div_lt_iff_lt_mul (by omega : 0 < c)).mp
    (Nat.lt_succ_self ((n - 1) / c))
  have h2 : n - 1 + 1 ≤ ((n - 1) / c + 1) * c := Nat.succ_le_of_lt hlt
  have hq2 : n ≤ ((n - 1) / c + 1) * c := by
    have hn1 : n - 1 + 1 = n := by omega
    rw [hn1] at h2
    exact h2
  rw [ht]
  refine le_antisymm (Nat.succ_le_of_lt (Nat.lt_ceil.mpr ?_))
    (Nat.ceil_le.mpr ?_)
  · rw [lt_div_iff₀ hc0]
    exact_mod_cast hq1
  · rw [div_le_iff₀ hc0]
    exact_mod_cast hq2

/-- C7: for every `n ≥ 1` the number of labels requested per cluster in
both simulators equals the integer ceiling of `n / num_clusters`
(e.g. `n = 10`, `num_clusters = 3` gives `4`), and every cluster's
extraction request in the run carries that same value. -/
theorem C7_ceil_per_cluster (n : Nat) (kg : KnowledgeGraph)
    (batch : List Summaries → List Themes)
    (batch2 : List KeyphrasesAndNumConcepts → List Concepts)
    (s : Nat → UserInputStyle) (l : Nat → UserInputLength)
    (r : AbstractRun) (r2 : ComparativeRun) (hn : 1 ≤ n)
    (hr : abstractRun n kg batch s l = Except.ok r)
    (hr2 : comparativeRun n kg batch2 s l = Except.ok r2) :
    (r.num_themes = ⌈(n : ℚ) / (r.num_clusters : ℚ)⌉₊ ∧
      ∀ kw ∈ r.kw_list, kw.num_themes = r.num_themes) ∧
    (r2.num_concepts = ⌈(n : ℚ) / (r2.num_clusters : ℚ)⌉₊ ∧
      ∀ kw ∈ r2.kw_list, kw.num_concepts = r2.num_concepts) := by
  obtain ⟨cs, hcs, rfl⟩ := abstractRun_ok.mp hr
  obtain ⟨cs2, hcs2, rfl⟩ := comparativeRun_ok.mp hr2
  have hpos := abstractNodeClusters_pos hn hcs
  have hpos2 := comparativeNodeClusters_pos hn hcs2
  refine ⟨⟨?_, ?_⟩, ⟨?_, ?_⟩⟩
  · simpa [abstractRunWith] using ceilNatDiv_eq_ceil n cs.length hn hpos
  · intro kw hkw
    simp only [abstractRunWith, List.mem_map] at hkw ⊢
    obtain ⟨c, hc, rfl⟩ := hkw
    rfl
  · simpa [comparativeRunWith] using ceilNatDiv_eq_ceil n cs2.length hn hpos2
  · intro kw hkw
    simp only [comparativeRunWith, List.mem_map] at hkw ⊢
    obtain ⟨c, hc, rfl⟩ := hkw
    rfl

/-- Witness for `C7_ceil_per_cluster` at the concrete fixtures, showing
the spec's example shape: 2 clusters for `n = 3` request
`ceil(3 / 2) = 2` themes each. -/
theorem C7_ceil_witness :
    ((abstractRunWith 3 [[chunkA], [chunkB]] batchDrop sConst
          lConst).num_themes =
        ⌈(3 : ℚ) /
          ((abstractRunWith 3 [[chunkA], [chunkB]] batchDrop sConst
            lConst).num_clusters : ℚ)⌉₊ ∧
      ∀ kw ∈ (abstractRunWith 3 [[chunkA], [chunkB]] batchDrop sConst
          lConst).kw_list,
        kw.num_themes =
          (abstractRunWith 3 [[chunkA], [chunkB]] batchDrop sConst
            lConst).num_themes) ∧
    ((comparativeRunWith 3 [[docA]] batchConceptsOne sConst
          lConst).num_concepts =
        ⌈(3 : ℚ) /
          ((comparativeRunWith 3 [[docA]] batchConceptsOne sConst
            lConst).num_clusters : ℚ)⌉₊ ∧
      ∀ kw ∈ (comparativeRunWith 3 [[docA]] batchConceptsOne sConst
          lConst).kw_list,
        kw.num_concepts =
          (comparativeRunWith 3 [[docA]] batchConceptsOne sConst
            lConst).num_concepts) :=
  C7_ceil_per_cluster 3 kgFallback batchDrop batchConceptsOne sConst lConst
    (abstractRunWith 3 [[chunkA], [chunkB]] batchDrop sConst lConst)
    (comparativeRunWith 3 [[docA]] batchConceptsOne sConst lConst)
    (by decide) (by decide) (by decide)

/-- A chunk node whose `page_content` property is present but is the
empty string. -/
def chunkEmptyContent : Node :=
  { type := "chunk", properties := [("page_content", Value.str "")] }

/-- A scenario over the empty-content node. -/
def scEmptyContent : AbstractQuestionScenario :=
  { theme := "t", nodes := [chunkEmptyContent], style := UserInputStyle.SIMPLE,
    length := UserInputLength.SHORT }

/-- C8, counterexample: the source guards only on `is not None`, so a
node whose `page_content` is present but empty contributes the empty
string to `reference_contexts` — the assembled sequence is not made of
non-empty textual values only (`Value.truthy` is Python's emptiness
test for strings). -/
theorem C8_counterexample :
    (AbstractQuestionSimulator.generate_sample scEmptyContent
        (fun _ => "q") (fun _ => false) (fun q _ => q)
        (fun _ _ => "a")).1.reference_contexts = [Value.str ""] ∧
      (Value.str "").truthy = false := by
  exact ⟨by decide, by decide⟩

/-- C8, amended: for every scenario, `reference_contexts` contains
exactly the *present* textual property values (`page_content` for theme
scenarios, `summary` for concept scenarios) of the scenario's nodes, in
node order; nodes whose property is absent are skipped entirely and
contribute nothing (in particular no empty string), but a present empty
string is included as-is.  Every collected value comes from some node
of the scenario. -/
theorem C8_reference_contexts (scenario : AbstractQuestionScenario)
    (g : AbstractQuestionScenario → String) (c : String → Bool)
    (m : String → AbstractQuestionScenario → String)
    (a : String → AbstractQuestionScenario → String)
    (scenario2 : ComparativeAbstractQuestionScenario)
    (g2 : ComparativeAbstractQuestionScenario → String) (c2 : String → Bool)
    (m2 : String → ComparativeAbstractQuestionScenario → String)
    (a2 : String → ComparativeAbstractQuestionScenario → String) :
    ((AbstractQuestionSimulator.generate_sample scenario g c m
          a).1.reference_contexts =
        scenario.nodes.filterMap (fun nd => nd.get_property "page_content") ∧
      ∀ v ∈ (AbstractQuestionSimulator.generate_sample scenario g c m
          a).1.reference_contexts,
        ∃ nd ∈ scenario.nodes, nd.get_property "page_content" = some v) ∧
    ((ComparativeAbstractQuestionSimulator.generate_sample scenario2 g2 c2 m2
          a2).1.reference_contexts =
        scenario2.nodes.filterMap (fun nd => nd.get_property "summary") ∧
      ∀ v ∈ (ComparativeAbstractQuestionSimulator.generate_sample scenario2
          g2 c2 m2 a2).1.reference_contexts,
        ∃ nd ∈ scenario2.nodes, nd.get_property "summary" = some v) := by
  refine ⟨⟨rfl, ?_⟩, ⟨rfl, ?_⟩⟩
  · intro v hv
    simp only [AbstractQuestionSimulator.generate_sample,
      List.mem_filterMap] at hv
    exact hv
  · intro v hv
    simp only [ComparativeAbstractQuestionSimulator.generate_sample,
      List.mem_filterMap] at hv
    exact hv

/-- Witness for `C8_reference_contexts` at concrete inputs: `chunkA`
carries page content `"A"` and it is collected, while
a node with no `page_content` contributes nothing. -/
theorem C8_reference_contexts_witness :
    (AbstractQuestionSimulator.generate_sample scPipeline (fun _ => "q")
        (fun _ => false) (fun q _ => q)
        (fun _ _ => "a")).1.reference_contexts =
      scPipeline.nodes.filterMap (fun nd => nd.get_property "page_content") :=
  (C8_reference_contexts scPipeline (fun _ => "q") (fun _ => false)
    (fun q _ => q) (fun _ _ => "a") scPipelineComp (fun _ => "q")
    (fun _ => false) (fun q _ => q) (fun _ _ => "a")).1.1

/-- C4, counterexample: in `kgChunkSummaryRel` two *chunk* nodes are
linked by a relationship carrying a `summary_cosine_similarity` score,
so `find_clusters` groups them and the comparative (concept-based)
simulator — which, unlike the abstract one, applies no node-type filter
to discovered clusters — submits a cluster of chunk nodes to the
concept-extraction batch. -/
theorem C4_counterexample :
    (comparativeRun 1 kgChunkSummaryRel batchConceptsOne sConst lConst).map
        (fun r => r.node_clusters) = Except.ok [[chunkA, chunkB]] ∧
      chunkA.type = NodeType.CHUNK ∧ chunkA.type ≠ NodeType.DOCUMENT := by
  exact ⟨by decide, by decide, by decide⟩

/-- Every cluster selected by the abstract simulator is all-chunk. -/
lemma abstractNodeClusters_types {n : Nat} {kg : KnowledgeGraph}
    {cs : List (List Node)} (h : abstractNodeClusters n kg = Except.ok cs) :
    ∀ c ∈ cs, ∀ nd ∈ c, nd.type = NodeType.CHUNK := by
  simp only [abstractNodeClusters] at h
  split at h
  · split at h
    · exact absurd h (by simp)
    · replace h := Except.ok.inj h
      subst h
      intro c hc nd hnd
      obtain ⟨nd2, hnd2, rfl⟩ := List.mem_map.mp (List.mem_of_mem_take hc)
      have hnd' : nd = nd2 := by simpa using hnd
      subst hnd'
      simpa using (List.mem_filter.mp hnd2).2
  · replace h := Except.ok.inj h
    subst h
    intro c hc nd hnd
    have hall := (List.mem_filter.mp hc).2
    simpa [NodeType.CHUNK] using (List.all_eq_true.mp hall) nd hnd

/-- When cluster discovery is empty, every cluster selected by the
comparative simulator (necessarily via the fallback) is a document
singleton. -/
lemma comparativeNodeClusters_types {n : Nat} {kg : KnowledgeGraph}
    {cs : List (List Node)} (hempty : kg.find_clusters comparativeRelCond = [])
    (h : comparativeNodeClusters n kg = Except.ok cs) :
    ∀ c ∈ cs, ∀ nd ∈ c, nd.type = NodeType.DOCUMENT := by
  simp only [comparativeNodeClusters, hempty] at h
  rw [if_pos (by simp)] at h
  split at h
  · exact absurd h (by simp)
  · replace h := Except.ok.inj h
    subst h
    intro c hc nd hnd
    obtain ⟨nd2, hnd2, rfl⟩ := List.mem_map.mp (List.mem_of_mem_take hc)
    have hnd' : nd = nd2 := by simpa using hnd
    subst hnd'
    simpa using (List.mem_filter.mp hnd2).2

/-- C4, amended: every cluster the abstract (theme-based) simulator
submits to theme extraction contains only chunk-type nodes — the claim
holds there.  For the comparative (concept-based) simulator, only the
fallback path is type-restricted: when cluster discovery is empty, every
submitted cluster contains only document-type nodes; but discovered
clusters are submitted with no node-type filter at all, and (per
`C4_counterexample`) can contain chunk nodes. -/
theorem C4_cluster_node_types (n : Nat) (kg : KnowledgeGraph)
    (batch : List Summaries → List Themes)
    (batch2 : List KeyphrasesAndNumConcepts → List Concepts)
    (s : Nat → UserInputStyle) (l : Nat → UserInputLength)
    (r : AbstractRun) (r2 : ComparativeRun)
    (hr : abstractRun n kg batch s l = Except.ok r)
    (hr2 : comparativeRun n kg batch2 s l = Except.ok r2)
    (hCempty : kg.find_clusters comparativeRelCond = []) :
    (∀ c ∈ r.node_clusters, ∀ nd ∈ c, nd.type = NodeType.CHUNK) ∧
    (∀ c ∈ r2.node_clusters, ∀ nd ∈ c, nd.type = NodeType.DOCUMENT) := by
  obtain ⟨cs, hcs, rfl⟩ := abstractRun_ok.mp hr
  obtain ⟨cs2, hcs2, rfl⟩ := comparativeRun_ok.mp hr2
  constructor
  · simpa [abstractRunWith] using abstractNodeClusters_types hcs
  · simpa [comparativeRunWith] using
      comparativeNodeClusters_types hCempty hcs2

/-- Witness for `C4_cluster_node_types` at the concrete fixtures. -/
theorem C4_cluster_node_types_witness :
    chunkA.type = NodeType.CHUNK ∧ docA.type = NodeType.DOCUMENT :=
  ⟨(C4_cluster_node_types 2 kgFallback batchDrop batchConceptsOne sConst
        lConst runC1A runC1C (by decide) (by decide) (by decide)).1
      [chunkA] (by decide) chunkA (by decide),
    (C4_cluster_node_types 2 kgFallback batchDrop batchConceptsOne sConst
        lConst runC1A runC1C (by decide) (by decide) (by decide)).2
      [docA] (by decide) docA (by decide)⟩

/-- A member of a zip comes from a common index of both lists. -/
lemma mem_zip_exists_index {α β : Type} {p : α × β} {as : List α}
    {bs : List β} (h : p ∈ as.zip bs) :
    ∃ i, ∃ h1 : i < as.length, ∃ h2 : i < bs.length,
      as.get ⟨i, h1⟩ = p.1 ∧ bs.get ⟨i, h2⟩ = p.2 := by
  obtain ⟨i, hi, hp⟩ := List.mem_iff_getElem.mp h
  have hlen := hi
  rw [List.length_zip] at hlen
  have h1 : i < as.length := by omega
  have h2 : i < bs.length := by omega
  rw [List.getElem_zip] at hp
  exact ⟨i, h1, h2, by rw [List.get_eq_getElem, ← hp],
    by rw [List.get_eq_getElem, ← hp]⟩

/-- The label `lab` was produced by the extraction result of the very
cluster `c` it is paired with: at some common position `j`, the
submitted cluster list holds `c` and the result list's labels at `j`
contain `lab`. -/
def labelFromOwnCluster {α : Type} (clusters : List (List Node))
    (results : List (List α)) (c : List Node) (lab : α) : Prop :=
  ∃ j, ∃ hc : j < clusters.length, ∃ hr : j < results.length,
    clusters.get ⟨j, hc⟩ = c ∧ lab ∈ results.get ⟨j, hr⟩

/-- Every pair produced by the flatten step pairs a cluster with a
label of its own result. -/
lemma pair_provenance {α : Type} {clusters : List (List Node)}
    {results : List (List α)} {p : List Node × α}
    (hp : p ∈ (clusters.zip results).flatMap
      (fun ct => ct.2.map (fun lab => (ct.1, lab)))) :
    labelFromOwnCluster clusters results p.1 p.2 := by
  obtain ⟨ct, hct, hpm⟩ := List.mem_flatMap.mp hp
  obtain ⟨lab, hlab, rfl⟩ := List.mem_map.mp hpm
  obtain ⟨j, h1, h2, hc, hr⟩ := mem_zip_exists_index hct
  exact ⟨j, h1, h2, hc, by rw [hr]; exact hlab⟩

/-- Variant of `pair_provenance` for a flatten step that projects the
label list out of a structured result (as the comparative simulator
does with `common_concept.concepts`). -/
lemma pair_provenance_proj {α β : Type} {clusters : List (List Node)}
    {results : List β} (proj : β → List α) {p : List Node × α}
    (hp : p ∈ (clusters.zip results).flatMap
      (fun ct => (proj ct.2).map (fun lab => (ct.1, lab)))) :
    labelFromOwnCluster clusters (results.map proj) p.1 p.2 := by
  obtain ⟨ct, hct, hpm⟩ := List.mem_flatMap.mp hp
  obtain ⟨lab, hlab, rfl⟩ := List.mem_map.mp hpm
  obtain ⟨j, h1, h2, hc, hr⟩ := mem_zip_exists_index hct
  have h2m : j < (results.map proj).length := by
    rw [List.length_map]
    exact h2
  refine ⟨j, h1, h2m, hc, ?_⟩
  rw [List.get_eq_getElem, List.getElem_map]
  rw [List.get_eq_getElem] at hr
  rw [hr]
  exact hlab

/-- The first two columns of a `zip4` member come from a common index
of the first two lists. -/
lemma zip4_mem_cols {α β γ δ : Type} {as : List α} {bs : List β}
    {cs : List γ} {ds : List δ} {q : α × β × γ × δ}
    (hq : q ∈ zip4 as bs cs ds) :
    ∃ i, ∃ h1 : i < as.length, ∃ h2 : i < bs.length,
      as.get ⟨i, h1⟩ = q.1 ∧ bs.get ⟨i, h2⟩ = q.2.1 := by
  obtain ⟨p, hp, rfl⟩ := List.mem_map.mp hq
  obtain ⟨i, h1, h2, ha, hb⟩ := mem_zip_exists_index hp
  have h2b : i < bs.length := by
    have h2c := h2
    rw [List.length_zip] at h2c
    omega
  refine ⟨i, h1, h2b, ha, ?_⟩
  rw [List.get_eq_getElem] at hb ⊢
  rw [List.getElem_zip] at hb
  rw [← hb]

/-- Every `zip4` member over the split pair columns recombines to a
member of the pair list: its cluster and label come from a common
extraction result. -/
lemma zip4_pairs_provenance {α : Type} {clusters : List (List Node)}
    {results : List (List α)} {styles : List UserInputStyle}
    {lens : List UserInputLength}
    {q : List Node × α × UserInputStyle × UserInputLength}
    (hq : q ∈ zip4
      (((clusters.zip results).flatMap
        (fun ct => ct.2.map (fun lab => (ct.1, lab)))).map (fun p => p.1))
      (((clusters.zip results).flatMap
        (fun ct => ct.2.map (fun lab => (ct.1, lab)))).map (fun p => p.2))
      styles lens) :
    labelFromOwnCluster clusters results q.1 q.2.1 := by
  obtain ⟨i, h1, h2, ha, hb⟩ := zip4_mem_cols hq
  have hP : i < ((clusters.zip results).flatMap
      (fun ct => ct.2.map (fun lab => (ct.1, lab)))).length := by
    have h1c := h1
    rw [List.length_map] at h1c
    exact h1c
  have ha2 : (((clusters.zip results).flatMap
      (fun ct => ct.2.map (fun lab => (ct.1, lab)))).get ⟨i, hP⟩).1 = q.1 := by
    rw [← ha]
    rw [List.get_eq_getElem, List.get_eq_getElem, List.getElem_map]
  have hb2 : (((clusters.zip results).flatMap
      (fun ct => ct.2.map (fun lab => (ct.1, lab)))).get ⟨i, hP⟩).2 = q.2.1 := by
    rw [← hb]
    rw [List.get_eq_getElem, List.get_eq_getElem, List.getElem_map]
  have hpair : (q.1, q.2.1) = ((clusters.zip results).flatMap
      (fun ct => ct.2.map (fun lab => (ct.1, lab)))).get ⟨i, hP⟩ :=
    (Prod.ext ha2 hb2).symm
  have hmem : (q.1, q.2.1) ∈ (clusters.zip results).flatMap
      (fun ct => ct.2.map (fun lab => (ct.1, lab))) := by
    rw [hpair, List.get_eq_getElem]
    exact List.getElem_mem hP
  exact pair_provenance hmem

/-- C9: assuming the batch collaborator returns one result per submitted
request in submission order (as `run_async_batch` guarantees), every
scenario built by `generate_scenarios` pairs its anchor label with the
cluster from whose extraction result that label came: at a common index
`j`, the scenario's nodes are the `j`-th submitted cluster and its
theme (resp. concept) is one of the labels of the `j`-th result. -/
theorem C9_label_from_own_cluster (n : Nat) (kg : KnowledgeGraph)
    (batch : List Summaries → List Themes)
    (batch2 : List KeyphrasesAndNumConcepts → List Concepts)
    (s : Nat → UserInputStyle) (l : Nat → UserInputLength)
    (r : AbstractRun) (r2 : ComparativeRun)
    (hr : abstractRun n kg batch s l = Except.ok r)
    (hr2 : comparativeRun n kg batch2 s l = Except.ok r2)
    (hb : (batch r.kw_list).length = r.kw_list.length)
    (hb2 : (batch2 r2.kw_list).length = r2.kw_list.length) :
    (∀ sc ∈ r.distributions, ∃ th : Theme, sc.theme = th.theme ∧
      labelFromOwnCluster r.node_clusters
        (r.themes.map (fun t => t.themes)) sc.nodes th) ∧
    (∀ sc ∈ r2.scenarios,
      labelFromOwnCluster r2.node_clusters
        (r2.common_concepts.map (fun c => c.concepts)) sc.nodes
        sc.common_concept) := by
  obtain ⟨cs, hcs, rfl⟩ := abstractRun_ok.mp hr
  obtain ⟨cs2, hcs2, rfl⟩ := comparativeRun_ok.mp hr2
  constructor
  · intro sc hsc
    simp only [abstractRunWith] at hsc ⊢
    obtain ⟨q, hq, rfl⟩ := List.mem_map.mp hsc
    exact ⟨q.2.1, rfl, zip4_pairs_provenance hq⟩
  · intro sc hsc
    simp only [comparativeRunWith, zip3] at hsc ⊢
    obtain ⟨q, hq, rfl⟩ := List.mem_map.mp hsc
    obtain ⟨p, hp, rfl⟩ := List.mem_map.mp hq
    exact pair_provenance_proj (fun c : Concepts => c.concepts) (List.of_mem_zip hp).1

/-- The single scenario of the abstract C1 fixture run. -/
def scC9 : AbstractQuestionScenario :=
  { theme := "t1", nodes := [chunkB], style := UserInputStyle.SIMPLE,
    length := UserInputLength.SHORT }

/-- The single scenario of the comparative C1 fixture run. -/
def scC9c : ComparativeAbstractQuestionScenario :=
  { common_concept := "c1", nodes := [docA], style := UserInputStyle.SIMPLE,
    length := UserInputLength.SHORT }

/-- Witness for `C9_label_from_own_cluster` at the concrete fixtures:
the produced scenario's theme `"t1"` indeed belongs to the result of
its own cluster `[chunkB]`, and likewise for the concept `"c1"` of
`[docA]`. -/
theorem C9_label_witness :
    (∃ th : Theme, scC9.theme = th.theme ∧
      labelFromOwnCluster runC1A.node_clusters
        (runC1A.themes.map (fun t => t.themes)) scC9.nodes th) ∧
    labelFromOwnCluster runC1C.node_clusters
      (runC1C.common_concepts.map (fun c => c.concepts)) scC9c.nodes
      scC9c.common_concept :=
  ⟨(C9_label_from_own_cluster 2 kgFallback batchDrop batchConceptsOne sConst
      lConst runC1A runC1C (by decide) (by decide) (by decide)
      (by decide)).1 scC9 (by decide),
    (C9_label_from_own_cluster 2 kgFallback batchDrop batchConceptsOne sConst
      lConst runC1A runC1C (by decide) (by decide) (by decide)
      (by decide)).2 scC9c (by decide)⟩

end AbstractQA
